import Mathlib

/-!
Shallow embedding of the NPC AI core of the BeaverFps repository
(`src/entities/NPC.js` together with its manager `NPCManager.js`).

Numbers are modelled as real numbers (the source uses JS floating-point
arithmetic for positions, distances, timers and health).  The mutable
`this` object of the `NPC` class becomes an explicit `NPC` record that
every method maps to an updated record.  External side effects
(animation swaps, debug-color changes, DOM events, damage dealt to the
target) are recorded in an `events` log inside the record.  The physics
collaborator and `Math.random` are supplied through an explicit `Env`.
-/

noncomputable section

namespace BeaverFps

open Real

/-- Planar 3-component vector, mirroring `THREE.Vector3`. -/
structure Vec3 where
  x : ℝ
  y : ℝ
  z : ℝ

namespace Vec3

/-- Componentwise addition (`Vector3.add`). -/
def add (a b : Vec3) : Vec3 := ⟨a.x + b.x, a.y + b.y, a.z + b.z⟩

/-- Componentwise subtraction (`Vector3.subVectors`). -/
def sub (a b : Vec3) : Vec3 := ⟨a.x - b.x, a.y - b.y, a.z - b.z⟩

/-- Scalar multiplication (`Vector3.multiplyScalar`). -/
def smul (s : ℝ) (a : Vec3) : Vec3 := ⟨s * a.x, s * a.y, s * a.z⟩

/-- Dot product (`Vector3.dot`). -/
def dot (a b : Vec3) : ℝ := a.x * b.x + a.y * b.y + a.z * b.z

/-- Squared length (`Vector3.lengthSq`). -/
def lengthSq (a : Vec3) : ℝ := a.x ^ 2 + a.y ^ 2 + a.z ^ 2

/-- Length (`Vector3.length`). -/
def norm (a : Vec3) : ℝ := Real.sqrt a.lengthSq

/-- Embeds `Vector3.normalize`, which divides by `length() || 1`; the zero vector is left
unchanged (its length is `0`, so the divisor falls back to `1`). -/
def normalize (a : Vec3) : Vec3 :=
  if a.norm = 0 then a else smul (1 / a.norm) a

/-- Distance between two points (`Vector3.distanceTo`). -/
def distTo (a b : Vec3) : ℝ := (sub b a).norm

/-- Componentwise linear interpolation (`Vector3.lerp`):
`v.lerp(t, alpha) = v + (t - v) * alpha`. -/
def lerp (v t : Vec3) (alpha : ℝ) : Vec3 :=
  ⟨v.x + (t.x - v.x) * alpha, v.y + (t.y - v.y) * alpha, v.z + (t.z - v.z) * alpha⟩

/-- Rotation about the `y`-axis by `angle` (`Vector3.applyQuaternion` for a pure-yaw
quaternion / `Object3D.rotation.y`). -/
def rotY (angle : ℝ) (v : Vec3) : Vec3 :=
  ⟨v.x * Real.cos angle + v.z * Real.sin angle, v.y,
   -v.x * Real.sin angle + v.z * Real.cos angle⟩

/-- Embeds `Math.atan2`. -/
def atan2 (y x : ℝ) : ℝ :=
  if 0 < x then Real.arctan (y / x)
  else if x < 0 then
    (if 0 ≤ y then Real.arctan (y / x) + Real.pi else Real.arctan (y / x) - Real.pi)
  else
    (if 0 < y then Real.pi / 2 else if y < 0 then -(Real.pi / 2) else 0)

end Vec3

/-- The `NPCState` enumeration of `NPC.js`. -/
inductive NPCState where
  | IDLE
  | PATROL
  | ALERT
  | CHASE
  | ATTACK
  | DEAD
deriving DecidableEq

/-- Externally observable side effects, recorded in order of occurrence:
`stateChange` is the `onStateChange` notification (animation swap and debug
color change), `attackEvent` is `performAttack` (damage dealt to the target
plus the dispatched `npc-attack` DOM event), `deathEvent` is the dispatched
`npc-death` DOM event. -/
inductive Event where
  | stateChange (old new_ : NPCState)
  | attackEvent (damage : ℝ)
  | deathEvent
deriving DecidableEq

/-- The `this.ai` sub-object of the `NPC` class.  The target reference is
modelled by the target's position (`getTargetPosition` reads
`target.position`, looked up afresh on each use). -/
structure AI where
  fovAngle : ℝ
  viewDistance : ℝ
  alertDistance : ℝ
  chaseDistance : ℝ
  attackDistance : ℝ
  loseTargetDistance : ℝ
  alertTimer : ℝ
  alertDuration : ℝ
  attackCooldown : ℝ
  attackRate : ℝ
  attackDamage : ℝ
  target : Option Vec3
  lastKnownTargetPos : Vec3
  canSeeTarget : Bool
  waypointReachedDistance : ℝ

/-- The mutable state of one `NPC` instance.  `position`/`yaw` are
`group.position`/`group.rotation.y` (all rotations in the source are pure
yaw).  `visible`, `tint`, `opacity`, `groupScale` model the renderable:
`group.visible`, the material color hex, the material opacity and the
uniform `group.scale`. -/
structure NPC where
  state : NPCState
  previousState : NPCState
  isAlive : Bool
  health : ℝ
  maxHealth : ℝ
  ai : AI
  moveSpeed : ℝ
  patrolSpeed : ℝ
  chaseSpeed : ℝ
  rotationSpeed : ℝ
  direction : Vec3
  targetDirection : Vec3
  velocity : Vec3
  position : Vec3
  yaw : ℝ
  patrolRadius : ℝ
  patrolCenter : Vec3
  patrolPoints : List Vec3
  currentPatrolIndex : ℕ
  changeDirectionTimer : ℝ
  changeDirectionInterval : ℝ
  spawnPosition : Vec3
  scale : ℝ
  groupScale : ℝ
  visible : Bool
  tint : ℕ
  opacity : ℝ
  isGrounded : Bool
  isLoaded : Bool
  events : List Event

/-- Result of `physicsWorld.npcGroundCheck`. -/
structure GroundCheck where
  grounded : Bool
  groundY : ℝ

/-- External collaborators consumed by `update`: the physics world
(`physicsWorld.world` existence plus the ground query) and the
`Math.random()` draw used by `pickNewDirection`. -/
structure Env where
  hasPhysicsWorld : Bool
  npcGroundCheck : Vec3 → GroundCheck
  randomAngle : ℝ

/-- Embeds `getTargetPosition`: the target reference is its position. -/
def getTargetPosition (npc : NPC) : Option Vec3 := npc.ai.target

/-- Embeds `getDistanceToTarget`; `none` models the `Infinity` returned when no
target is set. -/
def getDistanceToTarget (npc : NPC) : Option ℝ :=
  (getTargetPosition npc).map fun t => npc.position.distTo t

/-- JS comparison `distance > c` where `distance` may be `Infinity`. -/
def distGT (d : Option ℝ) (c : ℝ) : Prop :=
  match d with
  | none => True
  | some d => c < d

instance (d : Option ℝ) (c : ℝ) : Decidable (distGT d c) := by
  unfold distGT; exact match d with
  | none => inferInstanceAs (Decidable True)
  | some d => inferInstanceAs (Decidable (c < d))

/-- Embeds `onStateChange`: swaps the animation and recolors the debug cone; both
are externally observable effects, recorded as one notification. -/
def onStateChange (oldState newState : NPCState) (npc : NPC) : NPC :=
  { npc with events := npc.events ++ [Event.stateChange oldState newState] }

/-- Embeds `changeState`: the single transition function. -/
def changeState (newState : NPCState) (npc : NPC) : NPC :=
  if npc.state = newState then npc
  else
    let npc' := { npc with previousState := npc.state, state := newState }
    onStateChange npc'.previousState newState npc'

/-- Embeds `applyDeathEffect`: the model is tinted red immediately; the timed decay
(scale-down toward `0.01`, fade to opacity `0`, then `group.visible = false`)
runs over one second of wall-clock animation frames and is modelled here at
its completed end state. -/
def applyDeathEffect (npc : NPC) : NPC :=
  { npc with tint := 0xff0000, opacity := 0, groupScale := 0.01, visible := false }

/-- Embeds `die`. -/
def die (npc : NPC) : NPC :=
  if !npc.isAlive then npc
  else
    let npc1 := { npc with isAlive := false, health := 0 }
    let npc2 := changeState NPCState.DEAD npc1
    let npc3 := applyDeathEffect npc2
    { npc3 with events := npc3.events ++ [Event.deathEvent] }

/-- Embeds `takeDamage`. -/
def takeDamage (amount : ℝ) (npc : NPC) : NPC :=
  if !npc.isAlive then npc
  else
    let npc1 := { npc with health := npc.health - amount }
    let npc2 :=
      if npc1.state = NPCState.PATROL ∨ npc1.state = NPCState.IDLE then
        let npc1' :=
          match getTargetPosition npc1 with
          | some t => { npc1 with ai := { npc1.ai with lastKnownTargetPos := t } }
          | none => npc1
        changeState NPCState.CHASE npc1'
      else npc1
    if npc2.health ≤ 0 then die npc2 else npc2

/-- Embeds `canSeeTarget` (the vision-cone test method).  Named with a `Check`
suffix to distinguish it from the cached `ai.canSeeTarget` field the source
stores the result in. -/
def canSeeTargetCheck (npc : NPC) : Bool :=
  match npc.ai.target with
  | none => false
  | some _ =>
    match getTargetPosition npc with
    | none => false
    | some targetPos =>
      let toTarget := Vec3.sub targetPos npc.position
      let distance := toTarget.norm
      if npc.ai.viewDistance < distance then false
      else
        let toTargetN := toTarget.normalize
        let forward0 := Vec3.rotY npc.yaw ⟨0, 0, 1⟩
        let forward : Vec3 := Vec3.normalize ⟨forward0.x, 0, forward0.z⟩
        let d := forward.dot toTargetN
        let angle := Real.arccos (min (max d (-1)) 1)
        if npc.ai.fovAngle / 2 < angle then false
        else true

/-- Embeds `moveInDirection`: ground-snapped kinematic movement plus facing
update.  The `physicsWorld.moveNPCBody` call only mirrors `position` into
the physics collaborator and has no further observable effect here. -/
def moveInDirection (env : Env) (dir : Vec3) (speed delta : ℝ) (npc : NPC) : NPC :=
  let vel := Vec3.smul (speed * delta) dir
  let npc := { npc with velocity := vel }
  let newPosition := Vec3.add npc.position vel
  let p : NPC × Vec3 :=
    if env.hasPhysicsWorld then
      let gc := env.npcGroundCheck newPosition
      let npc' := { npc with isGrounded := gc.grounded }
      if gc.grounded then (npc', { newPosition with y := gc.groundY + 0.1 })
      else (npc', newPosition)
    else (npc, newPosition)
  let npc := { p.1 with position := p.2 }
  if 0.001 < dir.lengthSq then { npc with yaw := Vec3.atan2 dir.x dir.z }
  else npc

/-- Embeds `moveTowards`: steer toward a point; a `none` target point is the JS
falsy early return. -/
def moveTowards (env : Env) (targetPos : Option Vec3) (speed delta : ℝ) (npc : NPC) : NPC :=
  match targetPos with
  | none => npc
  | some tp =>
    let td0 := Vec3.sub tp npc.position
    let td1 : Vec3 := ⟨td0.x, 0, td0.z⟩
    let npc := { npc with targetDirection := td1 }
    if td1.lengthSq < 0.01 then npc
    else
      let td2 := td1.normalize
      let npc := { npc with targetDirection := td2 }
      let d := (Vec3.lerp npc.direction td2 (npc.rotationSpeed * delta)).normalize
      let npc := { npc with direction := d }
      moveInDirection env d speed delta npc

/-- Embeds `lookAt`: proportional yaw correction toward a point, no translation. -/
def lookAt (pos : Option Vec3) (npc : NPC) : NPC :=
  match pos with
  | none => npc
  | some p =>
    let d0 := Vec3.sub p npc.position
    let d : Vec3 := ⟨d0.x, 0, d0.z⟩
    if 0.001 < d.lengthSq then
      let angle := Vec3.atan2 d.x d.z
      { npc with yaw := npc.yaw + (angle - npc.yaw) * 0.1 }
    else npc

/-- Embeds `pickNewDirection`: the `Math.random()` draw comes from the
environment. -/
def pickNewDirection (env : Env) (npc : NPC) : NPC :=
  { npc with targetDirection := ⟨Real.sin env.randomAngle, 0, Real.cos env.randomAngle⟩ }

/-- Embeds `performAttack`: plays the attack animation, damages the external
target and dispatches the `npc-attack` event; all recorded as one event. -/
def performAttack (npc : NPC) : NPC :=
  { npc with events := npc.events ++ [Event.attackEvent npc.ai.attackDamage] }

/-- Embeds `updateIdle`. -/
def updateIdle (delta : ℝ) (npc : NPC) : NPC :=
  if npc.ai.canSeeTarget then changeState NPCState.ALERT npc
  else
    let npc := { npc with changeDirectionTimer := npc.changeDirectionTimer + delta }
    if 2.0 ≤ npc.changeDirectionTimer then
      changeState NPCState.PATROL { npc with changeDirectionTimer := 0 }
    else npc

/-- Embeds `updateRandomPatrol` (wander, used when the waypoint route is empty). -/
def updateRandomPatrol (env : Env) (delta : ℝ) (npc : NPC) : NPC :=
  let npc := { npc with changeDirectionTimer := npc.changeDirectionTimer + delta }
  let npc :=
    if npc.changeDirectionInterval ≤ npc.changeDirectionTimer then
      pickNewDirection env { npc with changeDirectionTimer := 0 }
    else npc
  let npc := { npc with
    direction := (Vec3.lerp npc.direction npc.targetDirection (npc.rotationSpeed * delta)).normalize }
  let npc := moveInDirection env npc.direction npc.patrolSpeed delta npc
  if npc.patrolRadius < npc.position.distTo npc.patrolCenter then
    { npc with targetDirection :=
        Vec3.normalize ⟨(Vec3.sub npc.patrolCenter npc.position).x, 0,
                        (Vec3.sub npc.patrolCenter npc.position).z⟩ }
  else npc

/-- Embeds `updatePatrol`.  The waypoint lookup is in range whenever the route is
non-empty (the index is kept in range by the modulus advance); an
out-of-range lookup cannot occur and leaves the NPC unchanged here. -/
def updatePatrol (env : Env) (delta : ℝ) (npc : NPC) : NPC :=
  if npc.ai.canSeeTarget then
    let npc :=
      match getTargetPosition npc with
      | some t => { npc with ai := { npc.ai with lastKnownTargetPos := t } }
      | none => npc
    changeState NPCState.ALERT npc
  else
    if npc.patrolPoints.length ≠ 0 then
      match npc.patrolPoints.get? npc.currentPatrolIndex with
      | none => npc
      | some targetPoint =>
        let npc := moveTowards env (some targetPoint) npc.patrolSpeed delta npc
        if npc.position.distTo targetPoint < npc.ai.waypointReachedDistance then
          { npc with currentPatrolIndex := (npc.currentPatrolIndex + 1) % npc.patrolPoints.length }
        else npc
    else updateRandomPatrol env delta npc

/-- Embeds `updateAlert`. -/
def updateAlert (delta : ℝ) (npc : NPC) : NPC :=
  let npc := lookAt (some npc.ai.lastKnownTargetPos) npc
  let npc := { npc with ai := { npc.ai with alertTimer := npc.ai.alertTimer + delta } }
  if npc.ai.canSeeTarget then
    let npc :=
      match getTargetPosition npc with
      | some t => { npc with ai := { npc.ai with lastKnownTargetPos := t } }
      | none => npc
    if npc.ai.alertDuration ≤ npc.ai.alertTimer then
      changeState NPCState.CHASE { npc with ai := { npc.ai with alertTimer := 0 } }
    else npc
  else
    if npc.ai.alertDuration * 2 ≤ npc.ai.alertTimer then
      changeState NPCState.PATROL { npc with ai := { npc.ai with alertTimer := 0 } }
    else npc

/-- Embeds `updateChase`. -/
def updateChase (env : Env) (delta : ℝ) (npc : NPC) : NPC :=
  let distance := getDistanceToTarget npc
  if !npc.ai.canSeeTarget then
    let npc := moveTowards env (some npc.ai.lastKnownTargetPos) npc.chaseSpeed delta npc
    if npc.position.distTo npc.ai.lastKnownTargetPos < 1.0 then
      changeState NPCState.PATROL npc
    else npc
  else
    let npc :=
      match getTargetPosition npc with
      | some t => { npc with ai := { npc.ai with lastKnownTargetPos := t } }
      | none => npc
    if ¬ distGT distance npc.ai.attackDistance then changeState NPCState.ATTACK npc
    else if distGT distance npc.ai.loseTargetDistance then changeState NPCState.PATROL npc
    else moveTowards env (getTargetPosition npc) npc.chaseSpeed delta npc

/-- Embeds `updateAttack`. -/
def updateAttack (npc : NPC) : NPC :=
  let distance := getDistanceToTarget npc
  let npc := lookAt (getTargetPosition npc) npc
  if distGT distance (npc.ai.attackDistance * 1.5) then changeState NPCState.CHASE npc
  else
    if npc.ai.attackCooldown ≤ 0 then
      let npc := performAttack npc
      { npc with ai := { npc.ai with attackCooldown := 1.0 / npc.ai.attackRate } }
    else npc

/-- Embeds `update`: the per-tick entry point.  The animation-mixer update has no
observable effect in this model. -/
def update (env : Env) (delta : ℝ) (npc : NPC) : NPC :=
  if !npc.isLoaded || !npc.isAlive then npc
  else
    let npc :=
      if 0 < npc.ai.attackCooldown then
        { npc with ai := { npc.ai with attackCooldown := npc.ai.attackCooldown - delta } }
      else npc
    let npc := { npc with ai := { npc.ai with canSeeTarget := canSeeTargetCheck npc } }
    match npc.state with
    | NPCState.IDLE => updateIdle delta npc
    | NPCState.PATROL => updatePatrol env delta npc
    | NPCState.ALERT => updateAlert delta npc
    | NPCState.CHASE => updateChase env delta npc
    | NPCState.ATTACK => updateAttack npc
    | NPCState.DEAD => npc

/-- Embeds `revive`. -/
def revive (npc : NPC) : NPC :=
  let npc1 := { npc with isAlive := true, health := npc.maxHealth }
  let npc2 := changeState NPCState.PATROL npc1
  { npc2 with
      visible := true
      groupScale := npc2.scale
      position := npc2.spawnPosition
      yaw := 0
      opacity := 1
      tint := 0xffffff }

/-- The `NPCManagerClass` state: the live collection and the shared player
target (modelled, like `ai.target`, by the target's position). -/
structure Registry where
  npcs : List NPC
  playerTarget : Option Vec3

/-- Effect of a successful `load` on the constructed NPC: position and
patrol center move to the spawn position, the loaded flag is set and the
state becomes PATROL. -/
def loadResolve (npc : NPC) : NPC :=
  { npc with
      position := npc.spawnPosition
      patrolCenter := npc.spawnPosition
      isLoaded := true
      state := NPCState.PATROL }

/-- Embeds `spawnNPC`: the constructed NPC and the asset-load outcome are supplied
by the caller (the loader is an external collaborator).  On success the NPC
is loaded, given the shared target, attached to the scene and appended to
the collection; a load failure is caught and yields `none`, with the
registry unchanged. -/
def spawnNPC (loadOk : Bool) (npc : NPC) (m : Registry) : Option NPC × Registry :=
  if loadOk then
    let npc1 := loadResolve npc
    let npc2 :=
      match m.playerTarget with
      | some t => { npc1 with ai := { npc1.ai with target := some t } }
      | none => npc1
    (some npc2, { m with npcs := m.npcs ++ [npc2] })
  else (none, m)

/-- Embeds `spawnMultiple`: one spawn per entry of `loads` (the per-spawn load
outcomes); `mk` builds the NPC constructed for a given current collection
size (the source derives the name and a random position from it).  The
returned list keeps only the non-null results, as `results.filter` does. -/
def spawnMultiple : List Bool → (ℕ → NPC) → Registry → List NPC × Registry
  | [], _, m => ([], m)
  | b :: rest, mk, m =>
    let r := spawnNPC b (mk m.npcs.length) m
    let rs := spawnMultiple rest mk r.2
    (match r.1 with
     | some npc => npc :: rs.1
     | none => rs.1, rs.2)

/-! ### Concrete instances used by witnesses and counterexamples -/

/-- The origin. -/
def v0 : Vec3 := ⟨0, 0, 0⟩

/-- The `ai` sub-object with the constructor's default configuration. -/
def baseAI : AI where
  fovAngle := Real.pi / 2
  viewDistance := 15
  alertDistance := 12
  chaseDistance := 20
  attackDistance := 2
  loseTargetDistance := 25
  alertTimer := 0
  alertDuration := 2
  attackCooldown := 0
  attackRate := 1
  attackDamage := 10
  target := none
  lastKnownTargetPos := v0
  canSeeTarget := false
  waypointReachedDistance := 0.5

/-- A loaded, live NPC with the constructor's default configuration,
patrolling at the origin. -/
def baseNPC : NPC where
  state := NPCState.PATROL
  previousState := NPCState.IDLE
  isAlive := true
  health := 100
  maxHealth := 100
  ai := baseAI
  moveSpeed := 2
  patrolSpeed := 1.5
  chaseSpeed := 3.5
  rotationSpeed := 3
  direction := ⟨0, 0, 1⟩
  targetDirection := ⟨0, 0, 1⟩
  velocity := v0
  position := v0
  yaw := 0
  patrolRadius := 10
  patrolCenter := v0
  patrolPoints := []
  currentPatrolIndex := 0
  changeDirectionTimer := 0
  changeDirectionInterval := 3
  spawnPosition := v0
  scale := 1
  groupScale := 1
  visible := true
  tint := 0xffffff
  opacity := 1
  isGrounded := false
  isLoaded := true
  events := []

/-- Environment with no physics world and a fixed random draw. -/
def env0 : Env where
  hasPhysicsWorld := false
  npcGroundCheck := fun _ => ⟨false, 0⟩
  randomAngle := 0

/-- A live NPC chasing, used as a concrete witness input. -/
def chaseNPC : NPC := { baseNPC with state := NPCState.CHASE }

/-- An idling NPC with a pending attack cooldown of 1 second. -/
def idleCooldownNPC : NPC :=
  { baseNPC with
      state := NPCState.IDLE
      ai := { baseAI with attackCooldown := 1 } }

/-- An NPC idling with a target reference at `(3, 0, 4)`. -/
def idleTargetNPC : NPC :=
  { baseNPC with
      state := NPCState.IDLE
      ai := { baseAI with target := some ⟨3, 0, 4⟩ } }

/-- A chasing NPC whose target stands `attackDistance - 0.01 = 1.99` units
away but directly BEHIND it (outside the vision cone), with the last known
target position at the NPC's own position. -/
def chaseBehindNPC : NPC :=
  { baseNPC with
      state := NPCState.CHASE
      ai := { baseAI with target := some ⟨0, 0, -(199/100)⟩ } }

/-- A chasing NPC whose target stands `attackDistance - 0.01 = 1.99` units
straight ahead (inside the vision cone). -/
def chaseFrontNPC : NPC :=
  { baseNPC with
      state := NPCState.CHASE
      ai := { baseAI with target := some ⟨0, 0, 199/100⟩ } }

/-- Places the target reference at distance `d` from the NPC, at angle `θ`
from the NPC's forward direction, in the horizontal plane; used to state
the vision-cone boundary property. -/
def placeTarget (npc : NPC) (d θ : ℝ) : NPC :=
  { npc with ai := { npc.ai with
      target := some (Vec3.add npc.position
        (Vec3.smul d ⟨Real.sin (npc.yaw + θ), 0, Real.cos (npc.yaw + θ)⟩)) } }

/-! ### Field-preservation lemmas

Each method of the source touches only a few fields of `this`; the lemmas
below record the fields each embedded operation leaves unchanged, and are
the backbone of the invariant proofs. -/

@[ext] theorem Vec3.ext_iff' (a b : Vec3) (hx : a.x = b.x) (hy : a.y = b.y)
    (hz : a.z = b.z) : a = b := by cases a; cases b; simp_all

@[simp] theorem changeState_state (s : NPCState) (npc : NPC) :
    (changeState s npc).state = s := by
  unfold changeState onStateChange; split_ifs with h
  · exact h
  · rfl

@[simp] theorem changeState_health (s : NPCState) (npc : NPC) :
    (changeState s npc).health = npc.health := by
  unfold changeState onStateChange; split_ifs <;> rfl

@[simp] theorem changeState_isAlive (s : NPCState) (npc : NPC) :
    (changeState s npc).isAlive = npc.isAlive := by
  unfold changeState onStateChange; split_ifs <;> rfl

@[simp] theorem changeState_maxHealth (s : NPCState) (npc : NPC) :
    (changeState s npc).maxHealth = npc.maxHealth := by
  unfold changeState onStateChange; split_ifs <;> rfl

@[simp] theorem changeState_ai (s : NPCState) (npc : NPC) :
    (changeState s npc).ai = npc.ai := by
  unfold changeState onStateChange; split_ifs <;> rfl

@[simp] theorem changeState_spawnPosition (s : NPCState) (npc : NPC) :
    (changeState s npc).spawnPosition = npc.spawnPosition := by
  unfold changeState onStateChange; split_ifs <;> rfl

@[simp] theorem changeState_scale (s : NPCState) (npc : NPC) :
    (changeState s npc).scale = npc.scale := by
  unfold changeState onStateChange; split_ifs <;> rfl

@[simp] theorem die_maxHealth (npc : NPC) : (die npc).maxHealth = npc.maxHealth := by
  unfold die applyDeathEffect; split_ifs <;> simp

@[simp] theorem die_spawnPosition (npc : NPC) :
    (die npc).spawnPosition = npc.spawnPosition := by
  unfold die applyDeathEffect; split_ifs <;> simp

@[simp] theorem die_scale (npc : NPC) : (die npc).scale = npc.scale := by
  unfold die applyDeathEffect; split_ifs <;> simp

@[simp] theorem moveInDirection_ai (env : Env) (d : Vec3) (s δ : ℝ) (npc : NPC) :
    (moveInDirection env d s δ npc).ai = npc.ai := by
  simp only [moveInDirection]
  split_ifs <;> rfl

@[simp] theorem moveInDirection_state (env : Env) (d : Vec3) (s δ : ℝ) (npc : NPC) :
    (moveInDirection env d s δ npc).state = npc.state := by
  simp only [moveInDirection]
  split_ifs <;> rfl

@[simp] theorem moveInDirection_health (env : Env) (d : Vec3) (s δ : ℝ) (npc : NPC) :
    (moveInDirection env d s δ npc).health = npc.health := by
  simp only [moveInDirection]
  split_ifs <;> rfl

@[simp] theorem moveInDirection_isAlive (env : Env) (d : Vec3) (s δ : ℝ) (npc : NPC) :
    (moveInDirection env d s δ npc).isAlive = npc.isAlive := by
  simp only [moveInDirection]
  split_ifs <;> rfl

@[simp] theorem moveTowards_ai (env : Env) (tp : Option Vec3) (s δ : ℝ) (npc : NPC) :
    (moveTowards env tp s δ npc).ai = npc.ai := by
  cases tp with
  | none => rfl
  | some t =>
    simp only [moveTowards]
    split_ifs <;> simp

@[simp] theorem moveTowards_state (env : Env) (tp : Option Vec3) (s δ : ℝ) (npc : NPC) :
    (moveTowards env tp s δ npc).state = npc.state := by
  cases tp with
  | none => rfl
  | some t =>
    simp only [moveTowards]
    split_ifs <;> simp

@[simp] theorem moveTowards_health (env : Env) (tp : Option Vec3) (s δ : ℝ) (npc : NPC) :
    (moveTowards env tp s δ npc).health = npc.health := by
  cases tp with
  | none => rfl
  | some t =>
    simp only [moveTowards]
    split_ifs <;> simp

@[simp] theorem moveTowards_isAlive (env : Env) (tp : Option Vec3) (s δ : ℝ) (npc : NPC) :
    (moveTowards env tp s δ npc).isAlive = npc.isAlive := by
  cases tp with
  | none => rfl
  | some t =>
    simp only [moveTowards]
    split_ifs <;> simp

@[simp] theorem lookAt_ai (pos : Option Vec3) (npc : NPC) :
    (lookAt pos npc).ai = npc.ai := by
  cases pos with
  | none => rfl
  | some p =>
    simp only [lookAt]
    split_ifs <;> rfl

@[simp] theorem lookAt_state (pos : Option Vec3) (npc : NPC) :
    (lookAt pos npc).state = npc.state := by
  cases pos with
  | none => rfl
  | some p =>
    simp only [lookAt]
    split_ifs <;> rfl

@[simp] theorem lookAt_health (pos : Option Vec3) (npc : NPC) :
    (lookAt pos npc).health = npc.health := by
  cases pos with
  | none => rfl
  | some p =>
    simp only [lookAt]
    split_ifs <;> rfl

@[simp] theorem lookAt_isAlive (pos : Option Vec3) (npc : NPC) :
    (lookAt pos npc).isAlive = npc.isAlive := by
  cases pos with
  | none => rfl
  | some p =>
    simp only [lookAt]
    split_ifs <;> rfl

@[simp] theorem pickNewDirection_ai (env : Env) (npc : NPC) :
    (pickNewDirection env npc).ai = npc.ai := rfl

@[simp] theorem pickNewDirection_health (env : Env) (npc : NPC) :
    (pickNewDirection env npc).health = npc.health := rfl

@[simp] theorem pickNewDirection_isAlive (env : Env) (npc : NPC) :
    (pickNewDirection env npc).isAlive = npc.isAlive := rfl

@[simp] theorem performAttack_ai (npc : NPC) : (performAttack npc).ai = npc.ai := rfl

@[simp] theorem performAttack_health (npc : NPC) :
    (performAttack npc).health = npc.health := rfl

@[simp] theorem performAttack_isAlive (npc : NPC) :
    (performAttack npc).isAlive = npc.isAlive := rfl

@[simp] theorem performAttack_state (npc : NPC) :
    (performAttack npc).state = npc.state := rfl

@[simp] theorem updateIdle_health (δ : ℝ) (npc : NPC) :
    (updateIdle δ npc).health = npc.health := by
  unfold updateIdle
  dsimp only
  repeat' split
  all_goals simp

@[simp] theorem updateIdle_isAlive (δ : ℝ) (npc : NPC) :
    (updateIdle δ npc).isAlive = npc.isAlive := by
  unfold updateIdle
  dsimp only
  repeat' split
  all_goals simp

@[simp] theorem updateRandomPatrol_health (env : Env) (δ : ℝ) (npc : NPC) :
    (updateRandomPatrol env δ npc).health = npc.health := by
  unfold updateRandomPatrol
  dsimp only
  repeat' split
  all_goals simp

@[simp] theorem updateRandomPatrol_isAlive (env : Env) (δ : ℝ) (npc : NPC) :
    (updateRandomPatrol env δ npc).isAlive = npc.isAlive := by
  unfold updateRandomPatrol
  dsimp only
  repeat' split
  all_goals simp

@[simp] theorem updatePatrol_health (env : Env) (δ : ℝ) (npc : NPC) :
    (updatePatrol env δ npc).health = npc.health := by
  unfold updatePatrol
  dsimp only
  repeat' split
  all_goals simp

@[simp] theorem updatePatrol_isAlive (env : Env) (δ : ℝ) (npc : NPC) :
    (updatePatrol env δ npc).isAlive = npc.isAlive := by
  unfold updatePatrol
  dsimp only
  repeat' split
  all_goals simp

@[simp] theorem updateAlert_health (δ : ℝ) (npc : NPC) :
    (updateAlert δ npc).health = npc.health := by
  unfold updateAlert
  dsimp only
  repeat' split
  all_goals simp

@[simp] theorem updateAlert_isAlive (δ : ℝ) (npc : NPC) :
    (updateAlert δ npc).isAlive = npc.isAlive := by
  unfold updateAlert
  dsimp only
  repeat' split
  all_goals simp

@[simp] theorem updateChase_health (env : Env) (δ : ℝ) (npc : NPC) :
    (updateChase env δ npc).health = npc.health := by
  unfold updateChase
  dsimp only
  repeat' split
  all_goals simp

@[simp] theorem updateChase_isAlive (env : Env) (δ : ℝ) (npc : NPC) :
    (updateChase env δ npc).isAlive = npc.isAlive := by
  unfold updateChase
  dsimp only
  repeat' split
  all_goals simp

@[simp] theorem updateAttack_health (npc : NPC) :
    (updateAttack npc).health = npc.health := by
  unfold updateAttack
  dsimp only
  repeat' split
  all_goals simp

@[simp] theorem updateAttack_isAlive (npc : NPC) :
    (updateAttack npc).isAlive = npc.isAlive := by
  unfold updateAttack
  dsimp only
  repeat' split
  all_goals simp

@[simp] theorem update_health (env : Env) (δ : ℝ) (npc : NPC) :
    (update env δ npc).health = npc.health := by
  unfold update
  dsimp only
  repeat' split
  all_goals simp

@[simp] theorem update_isAlive (env : Env) (δ : ℝ) (npc : NPC) :
    (update env δ npc).isAlive = npc.isAlive := by
  unfold update
  dsimp only
  repeat' split
  all_goals simp

@[simp] theorem updateIdle_ai (δ : ℝ) (npc : NPC) :
    (updateIdle δ npc).ai = npc.ai := by
  unfold updateIdle
  dsimp only
  repeat' split
  all_goals simp

@[simp] theorem updateRandomPatrol_ai (env : Env) (δ : ℝ) (npc : NPC) :
    (updateRandomPatrol env δ npc).ai = npc.ai := by
  unfold updateRandomPatrol
  dsimp only
  repeat' split
  all_goals simp

@[simp] theorem updatePatrol_alertTimer (env : Env) (δ : ℝ) (npc : NPC) :
    (updatePatrol env δ npc).ai.alertTimer = npc.ai.alertTimer := by
  unfold updatePatrol
  dsimp only
  repeat' split
  all_goals simp

@[simp] theorem updatePatrol_attackCooldown (env : Env) (δ : ℝ) (npc : NPC) :
    (updatePatrol env δ npc).ai.attackCooldown = npc.ai.attackCooldown := by
  unfold updatePatrol
  dsimp only
  repeat' split
  all_goals simp

@[simp] theorem updateAlert_attackCooldown (δ : ℝ) (npc : NPC) :
    (updateAlert δ npc).ai.attackCooldown = npc.ai.attackCooldown := by
  unfold updateAlert
  dsimp only
  repeat' split
  all_goals simp

@[simp] theorem updateChase_alertTimer (env : Env) (δ : ℝ) (npc : NPC) :
    (updateChase env δ npc).ai.alertTimer = npc.ai.alertTimer := by
  unfold updateChase
  dsimp only
  repeat' split
  all_goals simp

@[simp] theorem updateChase_attackCooldown (env : Env) (δ : ℝ) (npc : NPC) :
    (updateChase env δ npc).ai.attackCooldown = npc.ai.attackCooldown := by
  unfold updateChase
  dsimp only
  repeat' split
  all_goals simp

@[simp] theorem updateAttack_alertTimer (npc : NPC) :
    (updateAttack npc).ai.alertTimer = npc.ai.alertTimer := by
  unfold updateAttack
  dsimp only
  repeat' split
  all_goals simp

theorem takeDamage_of_dead (npc : NPC) (amount : ℝ) (h : npc.isAlive = false) :
    takeDamage amount npc = npc := by
  unfold takeDamage
  simp [h]

theorem die_of_dead (npc : NPC) (h : npc.isAlive = false) : die npc = npc := by
  unfold die
  simp [h]

/-! ### Claim theorems -/

/-- C9: the transition function `changeState` is idempotent — called with
the NPC's current state it is a complete no-op (the record, hence
`previousState`, all timers and the event log, is unchanged, so no
state-change notification fires); called with a different state it records
the immediately prior state in `previousState`, switches to the new state,
leaves all timers (`ai`) untouched and fires exactly one state-change
notification. -/
theorem C9_changeState_idempotent (npc : NPC) (s : NPCState) :
    (npc.state = s → changeState s npc = npc) ∧
    (npc.state ≠ s →
      (changeState s npc).previousState = npc.state ∧
      (changeState s npc).state = s ∧
      (changeState s npc).events = npc.events ++ [Event.stateChange npc.state s] ∧
      (changeState s npc).ai = npc.ai) := by
  constructor
  · intro h
    unfold changeState
    simp [h]
  · intro h
    unfold changeState onStateChange
    simp [h]

/-- C9 witness: re-entering PATROL is a no-op; switching to CHASE records
PATROL as the previous state. -/
theorem C9_witness :
    changeState NPCState.PATROL baseNPC = baseNPC ∧
    (changeState NPCState.CHASE baseNPC).previousState = NPCState.PATROL := by
  refine ⟨(C9_changeState_idempotent baseNPC NPCState.PATROL).1 rfl, ?_⟩
  exact ((C9_changeState_idempotent baseNPC NPCState.CHASE).2 (by decide)).1

@[simp] theorem applyDeathEffect_health (npc : NPC) :
    (applyDeathEffect npc).health = npc.health := rfl

@[simp] theorem applyDeathEffect_isAlive (npc : NPC) :
    (applyDeathEffect npc).isAlive = npc.isAlive := rfl

theorem die_health_isAlive (npc : NPC) (h : npc.isAlive = true) :
    (die npc).health = 0 ∧ (die npc).isAlive = false := by
  unfold die
  simp [h]

/-- C5: `takeDamage` on a dead NPC is a complete no-op, and on a live NPC
leaves `health = max 0 (health - amount)` — so health is never negative
after the call, and damage that reaches 0 kills the NPC, making any further
damage fall into the dead no-op case. -/
theorem C5_takeDamage_health (npc : NPC) (amount : ℝ) :
    (npc.isAlive = false → takeDamage amount npc = npc) ∧
    (npc.isAlive = true →
      (takeDamage amount npc).health = max 0 (npc.health - amount) ∧
      0 ≤ (takeDamage amount npc).health ∧
      (npc.health - amount ≤ 0 → (takeDamage amount npc).isAlive = false)) := by
  constructor
  · intro h
    unfold takeDamage
    simp [h]
  · intro h
    unfold takeDamage
    rw [if_neg (by simp [h])]
    dsimp only
    have main : ∀ m : NPC, m.health = npc.health - amount → m.isAlive = true →
        (if m.health ≤ 0 then die m else m).health = max 0 (npc.health - amount) ∧
        0 ≤ (if m.health ≤ 0 then die m else m).health ∧
        (npc.health - amount ≤ 0 →
          (if m.health ≤ 0 then die m else m).isAlive = false) := by
      intro m hm hma
      by_cases hle : m.health ≤ 0
      · rw [if_pos hle]
        rw [hm] at hle
        refine ⟨?_, ?_, fun _ => (die_health_isAlive m hma).2⟩
        · rw [(die_health_isAlive m hma).1, max_eq_left hle]
        · rw [(die_health_isAlive m hma).1]
      · rw [if_neg hle]
        rw [hm] at hle
        push_neg at hle
        exact ⟨by rw [hm, max_eq_right hle.le], by rw [hm]; exact hle.le,
          fun hc => absurd hc (not_le.mpr hle)⟩
    refine main _ ?_ ?_
    · split
      · rw [changeState_health]
        split <;> rfl
      · rfl
    · split
      · rw [changeState_isAlive]
        split <;> exact h
      · exact h

/-- C5 witness: damage to a dead NPC is a no-op; 30 damage on 100 health
leaves `max 0 70`. -/
theorem C5_witness :
    takeDamage 30 { baseNPC with isAlive := false } = { baseNPC with isAlive := false } ∧
    (takeDamage 30 baseNPC).health = max 0 (100 - 30) := by
  constructor
  · exact (C5_takeDamage_health { baseNPC with isAlive := false } 30).1 rfl
  · exact ((C5_takeDamage_health baseNPC 30).2 rfl).1

/-- C10: non-lethal damage to a live NPC in ALERT, CHASE or ATTACK changes
only `health` — the resulting record is the input with `health` decremented,
so `behaviorState`, `previousState`, timers and `lastKnownTargetPos` are all
untouched. -/
theorem C10_takeDamage_frame (npc : NPC) (amount : ℝ)
    (halive : npc.isAlive = true)
    (hstate : npc.state = NPCState.ALERT ∨ npc.state = NPCState.CHASE ∨
      npc.state = NPCState.ATTACK)
    (hnl : amount < npc.health) :
    takeDamage amount npc = { npc with health := npc.health - amount } := by
  have hh : ¬ (npc.health - amount ≤ 0) := by linarith
  rcases hstate with h | h | h <;>
    simp [takeDamage, h, hh, halive]

/-- C10 witness: 30 damage on a full-health chasing NPC only lowers health. -/
theorem C10_witness :
    takeDamage 30 chaseNPC = { chaseNPC with health := chaseNPC.health - 30 } :=
  C10_takeDamage_frame chaseNPC 30 rfl (Or.inr (Or.inl rfl))
    (by norm_num [chaseNPC, baseNPC])

/-- C1 counterexample: a live NPC in PATROL with NO target reference still
transitions to CHASE on non-lethal damage; the claim says it should stay in
its state when no target reference exists. -/
theorem C1_counterexample :
    baseNPC.state = NPCState.PATROL ∧ baseNPC.ai.target = none ∧
    baseNPC.isAlive = true ∧ (takeDamage 30 baseNPC).isAlive = true ∧
    (takeDamage 30 baseNPC).state = NPCState.CHASE := by
  have h70 : ¬ ((100:ℝ) - 30 ≤ 0) := by norm_num
  refine ⟨rfl, rfl, rfl, ?_, ?_⟩ <;>
    simp [takeDamage, getTargetPosition, baseNPC, baseAI, changeState, onStateChange, h70]

/-- C1 (amended): non-lethal damage to a live NPC in IDLE or PATROL always
forces the transition to CHASE, whether or not a target reference exists;
`lastKnownTargetPos` is snapshotted to the target's current position exactly
when the target reference exists, and left unchanged otherwise. -/
theorem C1_amended (npc : NPC) (amount : ℝ)
    (halive : npc.isAlive = true)
    (hstate : npc.state = NPCState.IDLE ∨ npc.state = NPCState.PATROL)
    (hnl : amount < npc.health) :
    (takeDamage amount npc).state = NPCState.CHASE ∧
    (∀ t, npc.ai.target = some t →
      (takeDamage amount npc).ai.lastKnownTargetPos = t) ∧
    (npc.ai.target = none →
      (takeDamage amount npc).ai.lastKnownTargetPos = npc.ai.lastKnownTargetPos) := by
  have hh : ¬ (npc.health - amount ≤ 0) := by linarith
  refine ⟨?_, ?_, ?_⟩
  · rcases htar : npc.ai.target with _ | t <;> rcases hstate with h | h <;>
      simp [takeDamage, getTargetPosition, h, hh, htar, halive]
  · intro t ht
    rcases hstate with h | h <;>
      simp [takeDamage, getTargetPosition, h, hh, ht, halive]
  · intro ht
    rcases hstate with h | h <;>
      simp [takeDamage, getTargetPosition, h, hh, ht, halive]

/-- C2 counterexample: an NPC that starts and ends the tick in IDLE — never
in ATTACK — still has its `attackCooldown` decremented by the tick, so
`attackCooldown` does not change only while in its owning state ATTACK. -/
theorem C2_counterexample :
    idleCooldownNPC.state = NPCState.IDLE ∧
    idleCooldownNPC.ai.attackCooldown = 1 ∧
    (update env0 (1/2) idleCooldownNPC).state = NPCState.IDLE ∧
    (update env0 (1/2) idleCooldownNPC).ai.attackCooldown = 1 - 1/2 := by
  refine ⟨rfl, rfl, ?_, ?_⟩ <;>
    norm_num [update, updateIdle, canSeeTargetCheck, getTargetPosition,
      idleCooldownNPC, baseNPC, baseAI]

/-- C2 (amended): `alertTimer` changes only while in ALERT (a full update
tick in any other state preserves it), but `attackCooldown`, when positive,
is decremented by every update tick regardless of the current state — not
only in ATTACK — and neither timer is reset by entering its owning state:
the transition function `changeState` resets no timers at all (`alertTimer`
is instead zeroed at the threshold-triggered exits of ALERT, and
`attackCooldown` is reinitialized to `1/attackRate` when an attack
executes). -/
theorem C2_timers_amended (npc : NPC) (env : Env) (δ : ℝ) (s : NPCState) :
    (npc.state ≠ NPCState.ALERT →
      (update env δ npc).ai.alertTimer = npc.ai.alertTimer) ∧
    (npc.isLoaded = true → npc.isAlive = true → npc.state ≠ NPCState.ATTACK →
      0 < npc.ai.attackCooldown →
      (update env δ npc).ai.attackCooldown = npc.ai.attackCooldown - δ) ∧
    ((changeState s npc).ai.alertTimer = npc.ai.alertTimer ∧
     (changeState s npc).ai.attackCooldown = npc.ai.attackCooldown) := by
  refine ⟨?_, ?_, by rw [changeState_ai], by rw [changeState_ai]⟩
  · intro hs
    by_cases hl : npc.isLoaded = true
    · by_cases ha : npc.isAlive = true
      · by_cases hc : 0 < npc.ai.attackCooldown <;>
          cases hst : npc.state <;>
            first
              | exact absurd hst hs
              | simp [update, hl, ha, hc, hst]
      · have hb : npc.isAlive = false := by simpa using ha
        simp [update, hb]
    · have hb : npc.isLoaded = false := by simpa using hl
      simp [update, hb]
  · intro hl ha hs hc
    cases hst : npc.state <;>
      first
        | exact absurd hst hs
        | simp [update, hl, ha, hc, hst]

/-- C2 witness: a PATROL tick keeps `alertTimer`; an IDLE tick with a
positive cooldown decrements it; entering ALERT resets no timer. -/
theorem C2_witness :
    (update env0 1 baseNPC).ai.alertTimer = baseNPC.ai.alertTimer ∧
    (update env0 (1/2) idleCooldownNPC).ai.attackCooldown =
      idleCooldownNPC.ai.attackCooldown - 1/2 ∧
    (changeState NPCState.ALERT baseNPC).ai.alertTimer = baseNPC.ai.alertTimer := by
  refine ⟨?_, ?_, ?_⟩
  · exact (C2_timers_amended baseNPC env0 1 NPCState.ALERT).1 (by simp [baseNPC])
  · exact (C2_timers_amended idleCooldownNPC env0 (1/2) NPCState.ALERT).2.1 rfl rfl
      (by simp [idleCooldownNPC, baseNPC]) (by norm_num [idleCooldownNPC, baseAI])
  · exact (C2_timers_amended baseNPC env0 1 NPCState.ALERT).2.2.1

/-- C1 witness: damage while idling with a target forces CHASE and
snapshots the target position. -/
theorem C1_witness :
    (takeDamage 25 idleTargetNPC).state = NPCState.CHASE ∧
    (takeDamage 25 idleTargetNPC).ai.lastKnownTargetPos = ⟨3, 0, 4⟩ := by
  have h := C1_amended idleTargetNPC 25 rfl (Or.inl rfl)
    (by norm_num [idleTargetNPC, baseNPC])
  exact ⟨h.1, h.2.1 ⟨3, 0, 4⟩ (by rfl)⟩

theorem takeDamage_live (npc : NPC) (amount : ℝ) (h : npc.isAlive = true) :
    (npc.health - amount ≤ 0 →
      (takeDamage amount npc).health = 0 ∧ (takeDamage amount npc).isAlive = false) ∧
    (¬ (npc.health - amount ≤ 0) →
      (takeDamage amount npc).health = npc.health - amount ∧
      (takeDamage amount npc).isAlive = true) := by
  unfold takeDamage
  rw [if_neg (by simp [h])]
  dsimp only
  have main : ∀ m : NPC, m.health = npc.health - amount → m.isAlive = true →
      ((npc.health - amount ≤ 0 →
        (if m.health ≤ 0 then die m else m).health = 0 ∧
        (if m.health ≤ 0 then die m else m).isAlive = false) ∧
       (¬ (npc.health - amount ≤ 0) →
        (if m.health ≤ 0 then die m else m).health = npc.health - amount ∧
        (if m.health ≤ 0 then die m else m).isAlive = true)) := by
    intro m hm hma
    constructor
    · intro hle
      rw [if_pos (by rw [hm]; exact hle)]
      exact die_health_isAlive m hma
    · intro hgt
      rw [if_neg (by rw [hm]; exact hgt)]
      exact ⟨hm, hma⟩
  refine main _ ?_ ?_
  · split
    · rw [changeState_health]
      split <;> rfl
    · rfl
  · split
    · rw [changeState_isAlive]
      split <;> exact h
    · exact h

/-- C3: the invariant `alive ⇔ healthCurrent > 0` is preserved by every
complete public operation — `takeDamage`, `die`, `revive` and a full
`update` tick (any transient violation inside `takeDamage` is not
observable at this granularity). -/
theorem C3_alive_iff_health (npc : NPC) (env : Env) (delta amount : ℝ)
    (hmax : 0 < npc.maxHealth)
    (hinv : npc.isAlive = true ↔ 0 < npc.health) :
    ((takeDamage amount npc).isAlive = true ↔ 0 < (takeDamage amount npc).health) ∧
    ((die npc).isAlive = true ↔ 0 < (die npc).health) ∧
    ((revive npc).isAlive = true ↔ 0 < (revive npc).health) ∧
    ((update env delta npc).isAlive = true ↔ 0 < (update env delta npc).health) := by
  refine ⟨?_, ?_, ?_, ?_⟩
  · by_cases ha : npc.isAlive = true
    · by_cases hle : npc.health - amount ≤ 0
      · have k := (takeDamage_live npc amount ha).1 hle
        rw [k.1, k.2]
        simp
      · have k := (takeDamage_live npc amount ha).2 hle
        rw [k.1, k.2]
        simp only [true_iff]
        linarith [not_le.mp hle]
    · have hb : npc.isAlive = false := by simpa using ha
      rw [takeDamage_of_dead npc amount hb]
      exact hinv
  · by_cases ha : npc.isAlive = true
    · have k := die_health_isAlive npc ha
      rw [k.1, k.2]
      simp
    · have hb : npc.isAlive = false := by simpa using ha
      rw [die_of_dead npc hb]
      exact hinv
  · unfold revive
    dsimp only
    rw [changeState_isAlive, changeState_health]
    dsimp only
    simp [hmax]
  · rw [update_isAlive, update_health]
    exact hinv

/-- C3 witness: the invariant holds after each operation on the default
full-health NPC. -/
theorem C3_witness :
    ((takeDamage 30 baseNPC).isAlive = true ↔ 0 < (takeDamage 30 baseNPC).health) ∧
    ((die baseNPC).isAlive = true ↔ 0 < (die baseNPC).health) ∧
    ((revive baseNPC).isAlive = true ↔ 0 < (revive baseNPC).health) ∧
    ((update env0 1 baseNPC).isAlive = true ↔ 0 < (update env0 1 baseNPC).health) :=
  C3_alive_iff_health baseNPC env0 1 30 (by norm_num [baseNPC])
    (by norm_num [baseNPC])

@[simp] theorem spawnNPC_false (npc : NPC) (m : Registry) :
    spawnNPC false npc m = (none, m) := rfl

@[simp] theorem spawnNPC_true_len (npc : NPC) (m : Registry) :
    (spawnNPC true npc m).2.npcs.length = m.npcs.length + 1 := by
  simp [spawnNPC]

theorem spawnMultiple_lengths (loads : List Bool) (mk : ℕ → NPC) (m : Registry) :
    (spawnMultiple loads mk m).1.length = loads.count true ∧
    (spawnMultiple loads mk m).2.npcs.length = m.npcs.length + loads.count true := by
  induction loads generalizing m with
  | nil => simp [spawnMultiple]
  | cons b rest ih =>
    cases b
    · have h := ih m
      constructor
      · simpa [spawnMultiple] using h.1
      · simpa [spawnMultiple] using h.2
    · have h := ih (spawnNPC true (mk m.npcs.length) m).2
      obtain ⟨x, hx⟩ : ∃ x, (spawnNPC true (mk m.npcs.length) m).1 = some x := ⟨_, rfl⟩
      constructor
      · simp only [spawnMultiple]
        simp [hx, h.1, List.count_cons]
      · simp only [spawnMultiple]
        simp only [h.2, spawnNPC_true_len, List.count_cons]
        simp
        omega

theorem count_true_add_count_false (l : List Bool) :
    l.count true + l.count false = l.length := by
  induction l with
  | nil => rfl
  | cons b rest ih => cases b <;> simp [List.count_cons] <;> omega

/-- C8: `spawnNPC` returns `none` on a failed asset load without appending
to the registry, and `spawnMultiple` over `n` spawn attempts of which `k`
fail returns exactly the `n - k` successes and grows the live collection by
exactly `n - k`. -/
theorem C8_spawn_load_failure (loads : List Bool) (mk : ℕ → NPC) (m : Registry)
    (npc : NPC) :
    spawnNPC false npc m = (none, m) ∧
    (spawnMultiple loads mk m).1.length = loads.length - loads.count false ∧
    (spawnMultiple loads mk m).2.npcs.length =
      m.npcs.length + (loads.length - loads.count false) := by
  have h := spawnMultiple_lengths loads mk m
  have hc := count_true_add_count_false loads
  refine ⟨rfl, ?_, ?_⟩
  · rw [h.1]; omega
  · rw [h.2]; omega

/-- C7: `revive()` after `die()` restores PATROL state, full health, the
spawn position, and the default visual (visible, untinted, full opacity,
the configured scale), with the NPC alive again. -/
theorem C7_revive_roundtrip (npc : NPC) :
    (revive (die npc)).state = NPCState.PATROL ∧
    (revive (die npc)).health = npc.maxHealth ∧
    (revive (die npc)).position = npc.spawnPosition ∧
    (revive (die npc)).visible = true ∧
    (revive (die npc)).tint = 0xffffff ∧
    (revive (die npc)).opacity = 1 ∧
    (revive (die npc)).groupScale = npc.scale ∧
    (revive (die npc)).isAlive = true := by
  unfold revive
  dsimp only
  refine ⟨?_, ?_, ?_, rfl, rfl, rfl, ?_, ?_⟩
  · rw [changeState_state]
  · rw [changeState_health]
    dsimp only
    rw [die_maxHealth]
  · rw [changeState_spawnPosition]
    dsimp only
    rw [die_spawnPosition]
  · rw [changeState_scale]
    dsimp only
    rw [die_scale]
  · rw [changeState_isAlive]

theorem norm_z_axis (z : ℝ) : Vec3.norm ⟨0, 0, z⟩ = |z| := by
  unfold Vec3.norm Vec3.lengthSq
  have h : (0:ℝ) ^ 2 + 0 ^ 2 + z ^ 2 = z ^ 2 := by ring
  rw [h, Real.sqrt_sq_eq_abs]

theorem norm_dir_smul (d α : ℝ) (hd : 0 ≤ d) :
    Vec3.norm ⟨d * Real.sin α, 0, d * Real.cos α⟩ = d := by
  unfold Vec3.norm Vec3.lengthSq
  have h : (d * Real.sin α) ^ 2 + (0:ℝ) ^ 2 + (d * Real.cos α) ^ 2 = d ^ 2 := by
    have hs := Real.sin_sq_add_cos_sq α
    nlinarith [hs]
  rw [h, Real.sqrt_sq hd]

theorem normalize_dir_smul (d α : ℝ) (hd : 0 < d) :
    Vec3.normalize ⟨d * Real.sin α, 0, d * Real.cos α⟩ =
      ⟨Real.sin α, 0, Real.cos α⟩ := by
  unfold Vec3.normalize
  rw [norm_dir_smul d α hd.le, if_neg hd.ne']
  unfold Vec3.smul
  refine Vec3.ext_iff' _ _ ?_ ?_ ?_ <;> dsimp only <;> field_simp

theorem normalize_dir (α : ℝ) :
    Vec3.normalize ⟨Real.sin α, 0, Real.cos α⟩ = ⟨Real.sin α, 0, Real.cos α⟩ := by
  have h := normalize_dir_smul 1 α one_pos
  simpa using h

/-- Evaluation of the vision-cone test on a target placed at distance `d`
and angle `θ` from the forward direction: the test succeeds exactly when
`d ≤ viewDistance` and `θ ≤ fovAngle / 2` — both bounds inclusive. -/
theorem canSee_placeTarget (npc : NPC) (d θ : ℝ) (hd : 0 < d)
    (hθ0 : 0 ≤ θ) (hθπ : θ ≤ Real.pi) :
    (canSeeTargetCheck (placeTarget npc d θ) = true ↔
      (d ≤ npc.ai.viewDistance ∧ θ ≤ npc.ai.fovAngle / 2)) := by
  have hsub : Vec3.sub (Vec3.add npc.position
      (Vec3.smul d ⟨Real.sin (npc.yaw + θ), 0, Real.cos (npc.yaw + θ)⟩)) npc.position
      = ⟨d * Real.sin (npc.yaw + θ), 0, d * Real.cos (npc.yaw + θ)⟩ := by
    unfold Vec3.sub Vec3.add Vec3.smul
    refine Vec3.ext_iff' _ _ ?_ ?_ ?_ <;> dsimp only <;> ring
  have hfw0 : Vec3.rotY npc.yaw ⟨0, 0, 1⟩ = ⟨Real.sin npc.yaw, 0, Real.cos npc.yaw⟩ := by
    unfold Vec3.rotY
    refine Vec3.ext_iff' _ _ ?_ ?_ ?_ <;> dsimp only <;> ring
  have hdot : Vec3.dot ⟨Real.sin npc.yaw, 0, Real.cos npc.yaw⟩
      ⟨Real.sin (npc.yaw + θ), 0, Real.cos (npc.yaw + θ)⟩ = Real.cos θ := by
    unfold Vec3.dot
    have h1 := Real.cos_sub (npc.yaw + θ) npc.yaw
    have h2 : npc.yaw + θ - npc.yaw = θ := by ring
    rw [h2] at h1
    dsimp only
    linear_combination -h1
  have hclamp : min (max (Real.cos θ) (-1)) 1 = Real.cos θ := by
    rw [max_eq_left (Real.neg_one_le_cos θ), min_eq_left (Real.cos_le_one θ)]
  unfold canSeeTargetCheck getTargetPosition placeTarget
  dsimp only
  rw [hsub, norm_dir_smul d _ hd.le, normalize_dir_smul d _ hd, hfw0]
  dsimp only
  rw [normalize_dir, hdot, hclamp, Real.arccos_cos hθ0 hθπ]
  split_ifs with h1 h2
  · simp only [Bool.false_eq_true, false_iff]
    intro h
    exact absurd h.1 (not_le.mpr h1)
  · simp only [Bool.false_eq_true, false_iff]
    intro h
    exact absurd h.2 (not_le.mpr h2)
  · simp only [true_iff]
    exact ⟨le_of_not_lt h1, le_of_not_lt h2⟩

theorem chaseBehind_eq_placeTarget :
    chaseBehindNPC = placeTarget chaseNPC (199/100) Real.pi := by
  unfold chaseBehindNPC placeTarget chaseNPC baseNPC baseAI v0
  norm_num [Vec3.add, Vec3.smul, Real.sin_pi, Real.cos_pi]

theorem canSee_chaseBehind : canSeeTargetCheck chaseBehindNPC = false := by
  rw [chaseBehind_eq_placeTarget]
  have h := canSee_placeTarget chaseNPC (199/100) Real.pi (by norm_num)
    Real.pi_nonneg le_rfl
  cases hb : canSeeTargetCheck (placeTarget chaseNPC (199/100) Real.pi)
  · rfl
  · exfalso
    have hp := h.mp hb
    have : Real.pi ≤ Real.pi / 2 / 2 := by
      have := hp.2
      simpa [chaseNPC, baseNPC, baseAI] using this
    linarith [Real.pi_pos]

/-- C4 counterexample: an NPC in CHASE whose target is at distance
`attackDistance - 0.01` but behind it (not sensed) does NOT transition to
ATTACK on that tick — it heads for the last known position and, being
already there, drops to PATROL.  The claim asserts the ATTACK transition
from the distance alone. -/
theorem C4_counterexample :
    chaseBehindNPC.state = NPCState.CHASE ∧
    getDistanceToTarget chaseBehindNPC =
      some (chaseBehindNPC.ai.attackDistance - 1/100) ∧
    (update env0 (1/10) chaseBehindNPC).state = NPCState.PATROL ∧
    (update env0 (1/10) chaseBehindNPC).state ≠ NPCState.ATTACK := by
  have h1 : chaseBehindNPC.ai.attackCooldown = 0 := rfl
  have h2 : chaseBehindNPC.state = NPCState.CHASE := rfl
  have h3 : chaseBehindNPC.ai.lastKnownTargetPos = v0 := rfl
  have h4 : chaseBehindNPC.position = v0 := rfl
  have h5 : chaseBehindNPC.isLoaded = true := rfl
  have h6 : chaseBehindNPC.isAlive = true := rfl
  have hupd : (update env0 (1/10) chaseBehindNPC).state = NPCState.PATROL := by
    norm_num [update, updateChase, moveTowards, canSee_chaseBehind, h1, h2, h3, h4,
      h5, h6, v0, Vec3.sub, Vec3.lengthSq, Vec3.distTo, norm_z_axis]
  refine ⟨rfl, ?_, hupd, by rw [hupd]; decide⟩
  norm_num [getDistanceToTarget, getTargetPosition, chaseBehindNPC, baseNPC, baseAI,
    v0, Vec3.distTo, Vec3.sub, norm_z_axis]

theorem canSeeTargetCheck_set_cooldown (npc : NPC) (c : ℝ) :
    canSeeTargetCheck { npc with ai := { npc.ai with attackCooldown := c } } =
      canSeeTargetCheck npc := rfl

/-- C4 (amended): an NPC in CHASE whose target is SENSED (inside the vision
cone) at distance `attackDistance - 0.01` transitions to ATTACK on that
update tick. -/
theorem C4_amended (npc : NPC) (env : Env) (δ : ℝ)
    (hL : npc.isLoaded = true) (hA : npc.isAlive = true)
    (hst : npc.state = NPCState.CHASE)
    (hsee : canSeeTargetCheck npc = true)
    (hdist : getDistanceToTarget npc = some (npc.ai.attackDistance - 1/100)) :
    (update env δ npc).state = NPCState.ATTACK := by
  obtain ⟨t, htar⟩ : ∃ t, npc.ai.target = some t := by
    rcases h : npc.ai.target with _ | t
    · rw [getDistanceToTarget, getTargetPosition, h] at hdist
      cases hdist
    · exact ⟨t, rfl⟩
  have hdt : npc.position.distTo t = npc.ai.attackDistance - 1/100 := by
    rw [getDistanceToTarget, getTargetPosition, htar] at hdist
    simpa using hdist
  have hng : ¬ (npc.ai.attackDistance < npc.ai.attackDistance - 1/100) := by linarith
  have key : ∀ m : NPC, m.ai.canSeeTarget = true →
      m.ai.target = some t → m.position = npc.position →
      m.ai.attackDistance = npc.ai.attackDistance →
      (updateChase env δ m).state = NPCState.ATTACK := by
    intro m hm2 hm3 hm4 hm5
    unfold updateChase getDistanceToTarget getTargetPosition
    dsimp only
    rw [hm2, hm3]
    simp only [Bool.not_true, Bool.false_eq_true, if_false, Option.map_some']
    rw [hm4, hdt]
    rw [hm5]
    rw [if_pos (show ¬ distGT (some (npc.ai.attackDistance - 1/100))
      npc.ai.attackDistance from by simp [distGT])]
    rw [changeState_state]
  unfold update
  rw [if_neg (by simp [hL, hA])]
  dsimp only
  by_cases hc : 0 < npc.ai.attackCooldown
  · rw [if_pos hc]
    rw [hst]
    exact key _ hsee htar rfl rfl
  · rw [if_neg hc]
    rw [hst]
    exact key _ hsee htar rfl rfl

theorem chaseFront_eq_placeTarget :
    chaseFrontNPC = placeTarget chaseNPC (199/100) 0 := by
  unfold chaseFrontNPC placeTarget chaseNPC baseNPC baseAI v0
  norm_num [Vec3.add, Vec3.smul]

theorem canSee_chaseFront : canSeeTargetCheck chaseFrontNPC = true := by
  rw [chaseFront_eq_placeTarget]
  refine (canSee_placeTarget chaseNPC (199/100) 0 (by norm_num) le_rfl
    Real.pi_nonneg).mpr ?_
  constructor
  · show (199:ℝ)/100 ≤ chaseNPC.ai.viewDistance
    norm_num [chaseNPC, baseNPC, baseAI]
  · show (0:ℝ) ≤ chaseNPC.ai.fovAngle / 2
    have := Real.pi_pos
    simp only [chaseNPC, baseNPC, baseAI]
    positivity

/-- C4 witness: the sensed target straight ahead at distance 1.99 makes the
chasing NPC attack on the tick. -/
theorem C4_witness : (update env0 (1/10) chaseFrontNPC).state = NPCState.ATTACK :=
  C4_amended chaseFrontNPC env0 (1/10) rfl rfl rfl canSee_chaseFront
    (by norm_num [getDistanceToTarget, getTargetPosition, chaseFrontNPC, baseNPC,
      baseAI, v0, Vec3.distTo, Vec3.sub, norm_z_axis])

/-- C6: the vision-cone bounds are both inclusive — a target exactly at
distance `viewDistance` and angle `fovAngle/2` is visible, while a target
at distance `viewDistance + ε` or at angle `fovAngle/2 + ε` (for any
`ε > 0`) is not. -/
theorem C6_canSee_boundary (npc : NPC) (ε : ℝ)
    (hv : 0 < npc.ai.viewDistance)
    (hf0 : 0 ≤ npc.ai.fovAngle / 2) (hfπ : npc.ai.fovAngle / 2 ≤ Real.pi)
    (hε : 0 < ε) (hfε : npc.ai.fovAngle / 2 + ε ≤ Real.pi) :
    canSeeTargetCheck
      (placeTarget npc npc.ai.viewDistance (npc.ai.fovAngle / 2)) = true ∧
    canSeeTargetCheck
      (placeTarget npc (npc.ai.viewDistance + ε) (npc.ai.fovAngle / 2)) = false ∧
    canSeeTargetCheck
      (placeTarget npc npc.ai.viewDistance (npc.ai.fovAngle / 2 + ε)) = false := by
  refine ⟨?_, ?_, ?_⟩
  · exact (canSee_placeTarget npc npc.ai.viewDistance (npc.ai.fovAngle / 2)
      hv hf0 hfπ).mpr ⟨le_refl _, le_refl _⟩
  · cases hb : canSeeTargetCheck
        (placeTarget npc (npc.ai.viewDistance + ε) (npc.ai.fovAngle / 2))
    · rfl
    · exfalso
      have hp := (canSee_placeTarget npc (npc.ai.viewDistance + ε)
        (npc.ai.fovAngle / 2) (by linarith) hf0 hfπ).mp hb
      linarith [hp.1]
  · cases hb : canSeeTargetCheck
        (placeTarget npc npc.ai.viewDistance (npc.ai.fovAngle / 2 + ε))
    · rfl
    · exfalso
      have hp := (canSee_placeTarget npc npc.ai.viewDistance
        (npc.ai.fovAngle / 2 + ε) hv (by linarith) hfε).mp hb
      linarith [hp.2]

/-- C6 witness: the default configuration (`viewDistance = 15`,
`fovAngle = π/2`) with `ε = 1`. -/
theorem C6_witness :
    canSeeTargetCheck
      (placeTarget baseNPC baseNPC.ai.viewDistance (baseNPC.ai.fovAngle / 2)) = true ∧
    canSeeTargetCheck
      (placeTarget baseNPC (baseNPC.ai.viewDistance + 1)
        (baseNPC.ai.fovAngle / 2)) = false ∧
    canSeeTargetCheck
      (placeTarget baseNPC baseNPC.ai.viewDistance
        (baseNPC.ai.fovAngle / 2 + 1)) = false :=
  C6_canSee_boundary baseNPC 1
    (by norm_num [baseNPC, baseAI])
    (by show (0:ℝ) ≤ baseNPC.ai.fovAngle / 2
        simp only [baseNPC, baseAI]
        positivity)
    (by show baseNPC.ai.fovAngle / 2 ≤ Real.pi
        simp only [baseNPC, baseAI]
        linarith [Real.pi_pos])
    one_pos
    (by show baseNPC.ai.fovAngle / 2 + 1 ≤ Real.pi
        simp only [baseNPC, baseAI]
        linarith [Real.pi_gt_three])

end BeaverFps
